import Mathlib

/-!
Verification of the ASD screening backend.

This file contains a shallow embedding, in Lean 4, of the core algorithmic
content of the repository's Python backend:

* the questionnaire scorer (`screening_api.py`, `ASDScreeningEngine`):
  question catalog, per-item scoring, feature-row preparation and the
  questionnaire-modality risk tier;
* the risk-fusion engine (`unified_asd_api.py`,
  `ASDUnifiedSystem.combined_prediction`);
* the explainability engine (`medsiglip_integration.py`,
  `ASDExplainableAI`): input-gradient saliency (`generate_gradcam`),
  region attention analysis (`analyze_attention_regions`), the templated
  rationale (`generate_simple_explanation`) and the full pipeline
  (`generate_explanation`);
* the image-modality entry point (`ASDUnifiedSystem.predict_from_image`).

Python floats are modelled as exact rationals (`ℚ`), NumPy arrays as
functions out of `Fin` types, Python dicts as association lists or records
with `Option` fields for keys that are absent on some code paths, and
Python exceptions as `Option`/`Except` results.  External capabilities
(the pickled tabular classifier, the Keras CNN, PNG/base64 encoders) are
parameters of the embedded functions, mirroring the source's use of them
as loaded black boxes.
-/

/-! ## Questionnaire scorer (`screening_api.py`) -/

/-- One catalog entry of `ASDScreeningEngine.get_questions`:
`{"id": ..., "type": ..., "text": ...}`. -/
structure Question where
  id : String
  type : String
  text : String
deriving DecidableEq, Repr

/-- `ASDScreeningEngine.get_questions` — the fixed ten-item catalog. -/
def get_questions : List Question :=
  [⟨"A1", "reverse", "Looks when name is called"⟩,
   ⟨"A2", "reverse", "Makes eye contact easily"⟩,
   ⟨"A3", "reverse", "Points to request objects"⟩,
   ⟨"A4", "reverse", "Points to share interest"⟩,
   ⟨"A5", "reverse", "Engages in pretend play"⟩,
   ⟨"A6", "reverse", "Follows gaze"⟩,
   ⟨"A7", "reverse", "Seeks comfort when upset"⟩,
   ⟨"A8", "reverse", "Typical first words"⟩,
   ⟨"A9", "reverse", "Uses gestures"⟩,
   ⟨"A10", "direct", "Stares at nothing"⟩]

/-- The affirmative token set `["yes", "y", "1", "true"]` used by
`score_responses` (and by `prepare_input` for the yes/no demographic
fields). -/
def affirmativeTokens : List String := ["yes", "y", "1", "true"]

/-- Models Python `str.lower()` (character-wise lowercasing; the answers
and tokens involved are ASCII). -/
def lower (s : String) : String := ⟨s.data.map Char.toLower⟩

/-- A raw response set: Python `Dict[str, str]`, keyed by item id. -/
def Responses := List (String × String)

/-- The loop body of `ASDScreeningEngine.score_responses` for one question:
`answer = str(responses.get(q["id"], "")).lower()`,
`yes = answer in ["yes", "y", "1", "true"]`, then the polarity branch. -/
def item_score (q : Question) (responses : Responses) : ℕ :=
  let answer := lower ((List.lookup q.id responses).getD "")
  let yes := answer ∈ affirmativeTokens
  if q.type = "reverse" then
    if yes then 0 else 1
  else
    if yes then 1 else 0

/-- `ASDScreeningEngine.score_responses`: one `(id, score)` entry per
catalog question, in catalog order. -/
def score_responses (responses : Responses) : List (String × ℕ) :=
  get_questions.map fun q => (q.id, item_score q responses)

/-- The demographic fields consumed by `ASDScreeningEngine.prepare_input`
(`child_info.get(...)` with per-field defaults). -/
structure ChildInfo where
  age : Option ℚ
  sex : Option String
  jaundice : Option String
  family_asd : Option String

/-- `ASDScreeningEngine.prepare_input`: build the `data` dict from the
demographics and the scored responses, then project it onto
`feature_columns`, any missing column defaulting to `0`. -/
def prepare_input (feature_columns : List String) (child_info : ChildInfo)
    (scored : List (String × ℕ)) : List ℚ :=
  let data : List (String × ℚ) :=
    [("Age", child_info.age.getD 36),
     ("Sex", if lower (child_info.sex.getD "") ∈ ["m", "male"] then 0 else 1),
     ("Jaundice",
       if lower (child_info.jaundice.getD "") ∈ affirmativeTokens then 1 else 0),
     ("Family_mem_with_ASD",
       if lower (child_info.family_asd.getD "") ∈ affirmativeTokens then 1 else 0)]
    ++ scored.map fun p => (p.1, (p.2 : ℚ))
  feature_columns.map fun col => (List.lookup col data).getD 0

/-- Result record of `ASDScreeningEngine.predict`. -/
structure QuestionnaireResult where
  source : String
  prediction : ℤ
  prediction_label : String
  confidence : ℚ
  total_score : ℕ
  max_score : ℕ
  risk_level : String
  scored_responses : List (String × ℕ)
deriving Repr

/-- `ASDScreeningEngine.predict`.  The pickled tabular classifier is a
black-box capability (spec §6): `classify` embeds
`int(self.model.predict(X)[0])` and `classProba` embeds
`float(self.model.predict_proba(X)[0][1])`. -/
def screening_predict (classify : List ℚ → ℤ) (classProba : List ℚ → ℚ)
    (feature_columns : List String) (child_info : ChildInfo)
    (responses : Responses) : QuestionnaireResult :=
  let scored := score_responses responses
  let X := prepare_input feature_columns child_info scored
  let pred := classify X
  let proba := classProba X
  let total_score := (scored.map Prod.snd).sum
  let risk :=
    if pred = 1 then (if 7 ≤ total_score then "HIGH" else "MODERATE")
    else "LOW"
  { source := "questionnaire"
    prediction := pred
    prediction_label := if pred ≠ 0 then "ELEVATED_RISK" else "LOW_RISK"
    confidence := proba
    total_score := total_score
    max_score := 10
    risk_level := risk
    scored_responses := scored }

/-! ## Risk fusion engine (`unified_asd_api.py`, `combined_prediction`) -/

/-- The slice of a modality-result dict that `combined_prediction` reads:
`result.get("confidence", 0.0)` — the key may be absent. -/
structure ModalityIn where
  confidence : Option ℚ
deriving DecidableEq, Repr

/-- Result record of `ASDUnifiedSystem.combined_prediction`. -/
structure FusedVerdict where
  prediction : ℤ
  prediction_label : String
  confidence : ℚ
  risk_level : String
  questionnaire_details : ModalityIn
  image_details : ModalityIn
deriving DecidableEq, Repr

/-- `ASDUnifiedSystem.combined_prediction`: fixed weights 0.4/0.6, threshold
0.5 for the label and 0.75/0.5 for the tier. -/
def combined_prediction (questionnaire_result image_result : ModalityIn) :
    FusedVerdict :=
  let ml_weight : ℚ := 0.4
  let cnn_weight : ℚ := 0.6
  let q_conf := questionnaire_result.confidence.getD 0
  let i_conf := image_result.confidence.getD 0
  let combined_confidence := q_conf * ml_weight + i_conf * cnn_weight
  let final_prediction : ℤ := if 0.5 < combined_confidence then 1 else 0
  let risk_level :=
    if 0.75 < combined_confidence then "HIGH"
    else if 0.5 < combined_confidence then "MODERATE"
    else "LOW"
  { prediction := final_prediction
    prediction_label := if final_prediction ≠ 0 then "ELEVATED_RISK" else "LOW_RISK"
    confidence := combined_confidence
    risk_level := risk_level
    questionnaire_details := questionnaire_result
    image_details := image_result }

/-! ## Claims about the fusion engine -/

/-- Claim C1: for every pair of modality results (a missing confidence field
defaulting to 0.0), `combined_prediction` returns combined confidence exactly
`0.4 * q + 0.6 * i`, prediction 1 iff combined > 0.5, and risk tier HIGH iff
combined > 0.75, MODERATE iff 0.5 < combined ≤ 0.75, LOW otherwise; in
particular q = 0.8, i = 0.8 gives combined 0.8, tier HIGH, prediction 1, and
q missing, i = 0.9 gives combined 0.54, tier MODERATE. -/
theorem combined_prediction_formula (q i : ModalityIn) :
    (combined_prediction q i).confidence
        = q.confidence.getD 0 * 0.4 + i.confidence.getD 0 * 0.6 ∧
    ((combined_prediction q i).prediction = 1 ↔
        0.5 < (combined_prediction q i).confidence) ∧
    ((combined_prediction q i).prediction = 0 ↔
        (combined_prediction q i).confidence ≤ 0.5) ∧
    ((combined_prediction q i).risk_level = "HIGH" ↔
        0.75 < (combined_prediction q i).confidence) ∧
    ((combined_prediction q i).risk_level = "MODERATE" ↔
        (0.5 < (combined_prediction q i).confidence ∧
         (combined_prediction q i).confidence ≤ 0.75)) ∧
    ((combined_prediction q i).risk_level = "LOW" ↔
        (combined_prediction q i).confidence ≤ 0.5) ∧
    (combined_prediction ⟨some 0.8⟩ ⟨some 0.8⟩).confidence = 0.8 ∧
    (combined_prediction ⟨some 0.8⟩ ⟨some 0.8⟩).risk_level = "HIGH" ∧
    (combined_prediction ⟨some 0.8⟩ ⟨some 0.8⟩).prediction = 1 ∧
    (combined_prediction ⟨none⟩ ⟨some 0.9⟩).confidence = 0.54 ∧
    (combined_prediction ⟨none⟩ ⟨some 0.9⟩).risk_level = "MODERATE" := by
  refine ⟨rfl, ?_, ?_, ?_, ?_, ?_, ?_, ?_, ?_, ?_, ?_⟩
  · simp only [combined_prediction]
    split_ifs with h <;> simp_all
  · simp only [combined_prediction]
    split_ifs with h <;> simp_all [not_lt, le_of_lt]
  · simp only [combined_prediction]
    split_ifs with h1 h2 <;> simp_all [not_lt]
  · simp only [combined_prediction]
    split_ifs with h1 h2 <;> simp_all [not_lt]
  · simp only [combined_prediction]
    split_ifs with h1 h2 <;> simp_all [not_lt]
    linarith
  · norm_num [combined_prediction]
  · norm_num [combined_prediction]
  · norm_num [combined_prediction]
  · norm_num [combined_prediction]
  · norm_num [combined_prediction]

/-- Claim C10: the fused verdict's prediction and tier are mutually
consistent — prediction 1 exactly for tier MODERATE or HIGH, prediction 0
exactly for tier LOW — and if both input confidences lie in [0,1] the
combined confidence lies in [0,1]. -/
theorem combined_prediction_consistent (q i : ModalityIn) :
    ((combined_prediction q i).prediction = 1 ↔
        ((combined_prediction q i).risk_level = "MODERATE" ∨
         (combined_prediction q i).risk_level = "HIGH")) ∧
    ((combined_prediction q i).prediction = 0 ↔
        (combined_prediction q i).risk_level = "LOW") ∧
    (0 ≤ q.confidence.getD 0 → q.confidence.getD 0 ≤ 1 →
     0 ≤ i.confidence.getD 0 → i.confidence.getD 0 ≤ 1 →
     0 ≤ (combined_prediction q i).confidence ∧
       (combined_prediction q i).confidence ≤ 1) := by
  refine ⟨?_, ?_, ?_⟩
  · simp only [combined_prediction]
    split_ifs with h1 h2 <;> simp_all
    linarith
  · simp only [combined_prediction]
    split_ifs with h1 h2 <;> simp_all
    linarith
  · intro hq0 hq1 hi0 hi1
    constructor
    · show (0:ℚ) ≤ q.confidence.getD 0 * 0.4 + i.confidence.getD 0 * 0.6
      nlinarith
    · show q.confidence.getD 0 * 0.4 + i.confidence.getD 0 * 0.6 ≤ 1
      nlinarith

/-- Witness for C10 at concrete confidences q = 0, i = 1. -/
theorem combined_prediction_consistent_witness :
    0 ≤ (combined_prediction ⟨some 0⟩ ⟨some 1⟩).confidence ∧
      (combined_prediction ⟨some 0⟩ ⟨some 1⟩).confidence ≤ 1 :=
  (combined_prediction_consistent ⟨some 0⟩ ⟨some 1⟩).2.2
    (by simp) (by simp) (by simp) (by simp)

/-! ## Claims about the questionnaire scorer -/

/-- Claim C2 counterexample: for the all-empty response set the total score
is 9, not 0 (each of the nine reverse-polarity items scores 1 when
unanswered), refuting the claim that total_score of an all-empty response
set is 0. -/
theorem screening_total_empty_counterexample :
    (screening_predict (fun _ => 0) (fun _ => 0) [] ⟨none, none, none, none⟩
        []).total_score = 9 ∧
    (screening_predict (fun _ => 0) (fun _ => 0) [] ⟨none, none, none, none⟩
        []).total_score ≠ 0 := by
  decide

/-- Claim C2 (amended): for the all-empty response set the scorer assigns
every unanswered item the score of a non-affirmative answer under its
polarity — 1 for each of the nine reverse items, 0 for the direct item
A10 — so the resulting total_score is 9. -/
theorem score_responses_empty_amended :
    score_responses [] =
      [("A1", 1), ("A2", 1), ("A3", 1), ("A4", 1), ("A5", 1), ("A6", 1),
       ("A7", 1), ("A8", 1), ("A9", 1), ("A10", 0)] ∧
    (screening_predict (fun _ => 0) (fun _ => 0) [] ⟨none, none, none, none⟩
        []).total_score = 9 := by
  decide

/-- The per-item scoring rule, read off the polarity branch of
`score_responses`. -/
theorem item_score_cases (q : Question) (rs : Responses) :
    (item_score q rs = 0 ∨ item_score q rs = 1) ∧
    (q.type = "reverse" →
      item_score q rs =
        if lower ((List.lookup q.id rs).getD "") ∈ affirmativeTokens
        then 0 else 1) ∧
    (q.type ≠ "reverse" →
      item_score q rs =
        if lower ((List.lookup q.id rs).getD "") ∈ affirmativeTokens
        then 1 else 0) := by
  simp only [item_score]
  split_ifs with h1 h2 <;> simp_all

/-- Claim C8: every catalog item gets a score in {0,1} determined by its
polarity, the raw answer being normalized case-insensitively against
{"yes","y","1","true"}; reverse items score 0 on an affirmative answer and
1 otherwise, direct items the opposite; in particular reverse item A1
answered "no" scores 1, answered "yes" (or "YES") scores 0, and direct
item A10 answered "yes" scores 1. -/
theorem score_responses_polarity :
    (∀ (rs : Responses) (q : Question), q ∈ get_questions →
      List.lookup q.id (score_responses rs) = some (item_score q rs) ∧
      (item_score q rs = 0 ∨ item_score q rs = 1) ∧
      (q.type = "reverse" →
        item_score q rs =
          if lower ((List.lookup q.id rs).getD "") ∈ affirmativeTokens
          then 0 else 1) ∧
      (q.type ≠ "reverse" →
        item_score q rs =
          if lower ((List.lookup q.id rs).getD "") ∈ affirmativeTokens
          then 1 else 0)) ∧
    List.lookup "A1" (score_responses [("A1", "no")]) = some 1 ∧
    List.lookup "A1" (score_responses [("A1", "yes")]) = some 0 ∧
    List.lookup "A1" (score_responses [("A1", "YES")]) = some 0 ∧
    List.lookup "A10" (score_responses [("A10", "yes")]) = some 1 := by
  refine ⟨?_, by decide, by decide, by decide, by decide⟩
  intro rs q hq
  refine ⟨?_, (item_score_cases q rs).1, (item_score_cases q rs).2.1,
    (item_score_cases q rs).2.2⟩
  fin_cases hq <;> simp [score_responses, get_questions, List.lookup]

/-- Witness for C8 at the reverse item A1 and the empty response set. -/
theorem score_responses_polarity_witness :
    List.lookup "A1" (score_responses []) =
      some (item_score ⟨"A1", "reverse", "Looks when name is called"⟩ []) :=
  (score_responses_polarity.1 [] ⟨"A1", "reverse", "Looks when name is called"⟩
    (by decide)).1

/-- Claim C9: in `ASDScreeningEngine.predict`, when the tabular classifier
predicts positive (1) the modality risk tier is HIGH if total_score ≥ 7 and
MODERATE otherwise, and when it predicts anything else the tier is LOW. -/
theorem screening_predict_risk (classify : List ℚ → ℤ) (classProba : List ℚ → ℚ)
    (cols : List String) (ci : ChildInfo) (rs : Responses) :
    ((screening_predict classify classProba cols ci rs).prediction = 1 →
      7 ≤ (screening_predict classify classProba cols ci rs).total_score →
      (screening_predict classify classProba cols ci rs).risk_level = "HIGH") ∧
    ((screening_predict classify classProba cols ci rs).prediction = 1 →
      (screening_predict classify classProba cols ci rs).total_score < 7 →
      (screening_predict classify classProba cols ci rs).risk_level = "MODERATE") ∧
    ((screening_predict classify classProba cols ci rs).prediction ≠ 1 →
      (screening_predict classify classProba cols ci rs).risk_level = "LOW") := by
  simp only [screening_predict]
  refine ⟨?_, ?_, ?_⟩ <;> intro h1 <;> simp_all

/-- Witness for C9: a classifier that always answers 1, on the all-empty
response set (total score 9 ≥ 7), yields tier HIGH. -/
theorem screening_predict_risk_witness :
    (screening_predict (fun _ => 1) (fun _ => 0) [] ⟨none, none, none, none⟩
      []).risk_level = "HIGH" :=
  (screening_predict_risk (fun _ => 1) (fun _ => 0) [] ⟨none, none, none, none⟩
    []).1 rfl (by decide)

/-! ## Region analyzer (`medsiglip_integration.py`, `analyze_attention_regions`)

The heatmap handed to the analyzer is always a 224×224 array (produced by
`generate_gradcam`), modelled as a function `Fin 224 → Fin 224 → ℚ`.  The
Python slice bounds `int(f * 224)` are evaluated: `int(0.2*224) = 44`,
`int(0.3*224) = 67`, `int(0.4*224) = 89`, `int(0.45*224) = 100`,
`int(0.6*224) = 134`, `int(0.8*224) = 179`, `int(0.25*224) = 56`,
`int(0.7*224) = 156`, `int(0.75*224) = 168` (identical under Python float
arithmetic and exact arithmetic for h = w = 224). -/

/-- A 224×224 importance map. -/
def HeatMap := Fin 224 → Fin 224 → ℚ

/-- The index set of a NumPy slice `[a:b]` of a length-224 axis. -/
def sliceIdx (a b : ℕ) : Finset (Fin 224) :=
  Finset.univ.filter fun i => a ≤ (i : ℕ) ∧ (i : ℕ) < b

/-- `heatmap[r1:r2, c1:c2].mean()` — the mean of a rectangular slice. -/
def rectMean (m : HeatMap) (r1 r2 c1 c2 : ℕ) : ℚ :=
  (∑ i ∈ sliceIdx r1 r2, ∑ j ∈ sliceIdx c1 c2, m i j)
    / (((r2 - r1) * (c2 - c1) : ℕ) : ℚ)

/-- `heatmap.mean()` — the mean of the full 224×224 map. -/
def npMean (m : HeatMap) : ℚ :=
  (∑ i : Fin 224, ∑ j : Fin 224, m i j) / (224 * 224)

/-- The `regions` dict of `analyze_attention_regions`, in declaration
order (Python dicts preserve insertion order). -/
def regionsList (m : HeatMap) : List (String × ℚ) :=
  [("upper_face", rectMean m 44 89 44 179),
   ("eyes_region", rectMean m 67 100 56 168),
   ("mid_face", rectMean m 89 134 67 156),
   ("lower_face", rectMean m 134 179 56 168),
   ("overall", npMean m)]

/-- `ASDExplainableAI.analyze_attention_regions`:
`sorted(regions.items(), key=lambda x: x[1], reverse=True)` — a stable
descending sort on the score. -/
def analyze_attention_regions (m : HeatMap) : List (String × ℚ) :=
  (regionsList m).mergeSort fun a b => decide (b.2 ≤ a.2)

/-- The descending comparison is transitive. -/
theorem regionLE_trans : ∀ a b c : String × ℚ,
    decide (b.2 ≤ a.2) → decide (c.2 ≤ b.2) → decide (c.2 ≤ a.2) := by
  intro a b c hab hbc
  simp only [decide_eq_true_eq] at *
  exact hbc.trans hab

/-- The descending comparison is total. -/
theorem regionLE_total : ∀ a b : String × ℚ,
    (decide (b.2 ≤ a.2) || decide (a.2 ≤ b.2)) = true := by
  intro a b
  simp only [Bool.or_eq_true, decide_eq_true_eq]
  exact le_total b.2 a.2

/-- Claim C6: the analyzer returns one attention score per catalog entry
(upper_face, eyes_region, mid_face, lower_face, overall), sorted in
descending order of mean attention, ties broken by catalog declaration
order (a tied pair appearing in catalog order stays in that order), and
two analyses of the identical map yield identical rankings. -/
theorem analyze_attention_regions_ranked (m : HeatMap) :
    ((analyze_attention_regions m).map Prod.fst).Perm
      ["upper_face", "eyes_region", "mid_face", "lower_face", "overall"] ∧
    (analyze_attention_regions m).Pairwise (fun a b => b.2 ≤ a.2) ∧
    (∀ x y : String × ℚ, x.2 = y.2 →
      List.Sublist [x, y] (regionsList m) →
      List.Sublist [x, y] (analyze_attention_regions m)) ∧
    (∀ m' : HeatMap, m = m' →
      analyze_attention_regions m = analyze_attention_regions m') := by
  refine ⟨?_, ?_, ?_, ?_⟩
  · simpa [regionsList] using
      (List.mergeSort_perm (regionsList m) fun a b => decide (b.2 ≤ a.2)).map
        Prod.fst
  · exact (List.sorted_mergeSort regionLE_trans regionLE_total
      (regionsList m)).imp fun h => of_decide_eq_true h
  · intro x y hxy hsub
    exact List.pair_sublist_mergeSort regionLE_trans regionLE_total
      (decide_eq_true (le_of_eq hxy.symm)) hsub
  · intro m' h
    rw [h]

/-- Witness for C6: on the constant-zero map all regions tie, and the
catalog-order pair (upper_face, eyes_region) survives in that order. -/
theorem analyze_attention_regions_ranked_witness :
    List.Sublist
      [("upper_face", rectMean (fun _ _ => 0) 44 89 44 179),
       ("eyes_region", rectMean (fun _ _ => 0) 67 100 56 168)]
      (analyze_attention_regions fun _ _ => 0) := by
  refine (analyze_attention_regions_ranked fun _ _ => 0).2.2.1 _ _ ?_ ?_
  · simp [rectMean]
  · exact .cons₂ _ (.cons₂ _ (List.nil_sublist _))

/-- Claim C7: the "overall" attention score produced by the region
analyzer equals the mean of the full importance map, and "overall" is the
only entry carrying that name. -/
theorem analyze_attention_regions_overall (m : HeatMap) :
    ("overall", npMean m) ∈ analyze_attention_regions m ∧
    (∀ p ∈ analyze_attention_regions m, p.1 = "overall" → p.2 = npMean m) := by
  constructor
  · exact List.mem_mergeSort.mpr (by simp [regionsList])
  · intro p hp hname
    have hmem := List.mem_mergeSort.mp hp
    simp only [regionsList, List.mem_cons, List.not_mem_nil, or_false] at hmem
    rcases hmem with h | h | h | h | h <;> subst h <;> simp_all

/-- Witness for C7 at the constant-zero map, membership discharged by the
theorem's own first conjunct. -/
theorem analyze_attention_regions_overall_witness :
    (("overall", npMean fun _ _ => 0) : String × ℚ).2 = npMean fun _ _ => 0 :=
  (analyze_attention_regions_overall fun _ _ => 0).2 _
    (analyze_attention_regions_overall fun _ _ => 0).1 rfl

/-! ## Attribution engine (`medsiglip_integration.py`, `generate_gradcam`)

The preprocessed input is a `(224, 224, 3)` tensor of rationals.  The
loaded Keras model is a capability (spec §6): a score function plus
differentiability of the score in the input, with `tape.gradient`
possibly returning `None`.  `cv2.GaussianBlur(heatmap, (5, 5), 0)` uses
OpenCV's fixed 5-tap kernel `[1, 4, 6, 4, 1] / 16` (the tabulated kernel
for `ksize = 5, sigma = 0`) separably in both axes, with the default
`BORDER_REFLECT_101` border. -/

/-- A preprocessed `(1, 224, 224, 3)` image batch (the batch axis elided). -/
def Image3 := Fin 224 → Fin 224 → Fin 3 → ℚ

/-- The loaded CNN as a capability: the positive-class score and its
gradient with respect to the input (`tape.gradient` may return `None`). -/
structure CnnModel where
  predictScore : Image3 → ℚ
  inputGradient : Image3 → Option Image3

/-- OpenCV's tabulated 5-point Gaussian kernel for `ksize = 5, sigma = 0`:
`[0.0625, 0.25, 0.375, 0.25, 0.0625]`. -/
def kernel5 : Fin 5 → ℚ
  | ⟨0, _⟩ => 1 / 16
  | ⟨1, _⟩ => 1 / 4
  | ⟨2, _⟩ => 3 / 8
  | ⟨3, _⟩ => 1 / 4
  | ⟨4, _⟩ => 1 / 16

/-- `BORDER_REFLECT_101` index reflection for a length-224 axis. -/
def reflect101 (z : ℤ) : ℤ :=
  if z < 0 then -z else if 224 ≤ z then 2 * 224 - 2 - z else z

/-- The reflected index as a `Fin 224` (the clamp is inert for the offsets
±2 that the 5×5 kernel produces). -/
def refl224 (z : ℤ) : Fin 224 :=
  ⟨min (reflect101 z).toNat 223,
   Nat.lt_of_le_of_lt (Nat.min_le_right _ _) (by norm_num)⟩

/-- `cv2.GaussianBlur(·, (5, 5), 0)` on a 224×224 map. -/
def gaussianBlur5 (m : HeatMap) : HeatMap := fun i j =>
  ∑ kr : Fin 5, ∑ kc : Fin 5,
    kernel5 kr * kernel5 kc *
      m (refl224 (((i : ℕ) : ℤ) + ((kr : ℕ) : ℤ) - 2))
        (refl224 (((j : ℕ) : ℤ) + ((kc : ℕ) : ℤ) - 2))

/-- `np.min(heatmap)`. -/
def hmMin (m : HeatMap) : ℚ :=
  (Finset.univ : Finset (Fin 224 × Fin 224)).inf' Finset.univ_nonempty
    fun p => m p.1 p.2

/-- `np.max(heatmap)`. -/
def hmMax (m : HeatMap) : ℚ :=
  (Finset.univ : Finset (Fin 224 × Fin 224)).sup' Finset.univ_nonempty
    fun p => m p.1 p.2

/-- `np.mean(np.abs(grads_np), axis=-1)` — per-pixel channel-mean of the
absolute input gradient. -/
def gradHeat (g : Image3) : HeatMap := fun i j =>
  (|g i j 0| + |g i j 1| + |g i j 2|) / 3

/-- The final normalization step of `generate_gradcam`: min-max normalize
to [0, 1] when the map is non-degenerate, otherwise the flat neutral map
`np.ones((224, 224)) * 0.5`. -/
def minmaxNormalize (b : HeatMap) : HeatMap :=
  if hmMin b < hmMax b then
    fun i j => (b i j - hmMin b) / (hmMax b - hmMin b)
  else
    fun _ _ => 1 / 2

/-- `ASDExplainableAI.generate_gradcam`: placeholder `0.5` map when no
model is set or the gradient is unavailable; otherwise channel-mean of
the absolute input gradient, Gaussian-blurred, then min-max normalized. -/
def generate_gradcam (model : Option CnnModel) (img_array : Image3) : HeatMap :=
  match model with
  | none => fun _ _ => 1 / 2
  | some mdl =>
    match mdl.inputGradient img_array with
    | none => fun _ _ => 1 / 2
    | some grads => minmaxNormalize (gaussianBlur5 (gradHeat grads))

/-- The blur kernel is an affine combination: blurring a constant map
returns it unchanged. -/
theorem gaussianBlur5_const (c : ℚ) :
    gaussianBlur5 (fun _ _ => c) = fun _ _ => c := by
  funext i j
  show (∑ kr : Fin 5, ∑ kc : Fin 5, kernel5 kr * kernel5 kc * c) = c
  simp only [Fin.sum_univ_five, show kernel5 0 = 1 / 16 from rfl,
    show kernel5 1 = 1 / 4 from rfl, show kernel5 2 = 3 / 8 from rfl,
    show kernel5 3 = 1 / 4 from rfl, show kernel5 4 = 1 / 16 from rfl]
  ring

/-- Every value of a min-max normalized map lies in [0, 1]. -/
theorem minmaxNormalize_mem_unitInterval (b : HeatMap) (i j : Fin 224) :
    0 ≤ minmaxNormalize b i j ∧ minmaxNormalize b i j ≤ 1 := by
  unfold minmaxNormalize
  split_ifs with hlt
  · have hb0 : hmMin b ≤ b i j :=
      Finset.inf'_le (fun p : Fin 224 × Fin 224 => b p.1 p.2)
        (Finset.mem_univ (i, j))
    have hb1 : b i j ≤ hmMax b :=
      Finset.le_sup' (fun p : Fin 224 × Fin 224 => b p.1 p.2)
        (Finset.mem_univ (i, j))
    constructor
    · exact div_nonneg (sub_nonneg.mpr hb0) (le_of_lt (sub_pos.mpr hlt))
    · exact (div_le_one (sub_pos.mpr hlt)).mpr (sub_le_sub_right hb1 _)
  · norm_num

/-- Claim C4: for every input tensor the attribution returns a 224×224
map with every value in [0, 1]; on a missing model, an unavailable
gradient, or a degenerate (constant) gradient it returns the flat neutral
map of constant 0.5. -/
theorem generate_gradcam_spec (model : Option CnnModel) (img : Image3) :
    (∀ i j : Fin 224,
      0 ≤ generate_gradcam model img i j ∧ generate_gradcam model img i j ≤ 1) ∧
    (model = none → generate_gradcam model img = fun _ _ => 1 / 2) ∧
    (∀ mdl, model = some mdl → mdl.inputGradient img = none →
      generate_gradcam model img = fun _ _ => 1 / 2) ∧
    (∀ mdl g v, model = some mdl → mdl.inputGradient img = some g →
      (∀ i j c, g i j c = v) →
      generate_gradcam model img = fun _ _ => 1 / 2) := by
  refine ⟨?_, ?_, ?_, ?_⟩
  · intro i j
    rcases model with _ | mdl
    · simp only [generate_gradcam]
      norm_num
    · rcases hgr : mdl.inputGradient img with _ | grads
      · simp only [generate_gradcam, hgr]
        norm_num
      · simp only [generate_gradcam, hgr]
        exact minmaxNormalize_mem_unitInterval _ i j
  · intro h
    subst h
    simp only [generate_gradcam]
  · intro mdl hm hg
    subst hm
    simp only [generate_gradcam, hg]
  · intro mdl g v hm hg hv
    subst hm
    simp only [generate_gradcam, hg]
    have hconst : gradHeat g = fun _ _ => |v| := by
      funext i j
      show (|g i j 0| + |g i j 1| + |g i j 2|) / 3 = |v|
      rw [hv i j 0, hv i j 1, hv i j 2]
      ring
    have h1 : hmMin (fun _ _ => |v|) = |v| := by simp [hmMin]
    have h2 : hmMax (fun _ _ => |v|) = |v| := by simp [hmMax]
    rw [hconst, gaussianBlur5_const, minmaxNormalize, h1, h2,
      if_neg (lt_irrefl _)]

/-- Witness for C4: with no model set, the map is flat 0.5 and bounded. -/
theorem generate_gradcam_spec_witness :
    generate_gradcam none (fun _ _ _ => 0) = fun _ _ => 1 / 2 :=
  (generate_gradcam_spec none fun _ _ _ => 0).2.1 rfl

/-! ## Explanation renderer (`medsiglip_integration.py`,
`generate_simple_explanation`)

The f-string template is embedded literally (including its leading
newline, trailing indentation and the two trailing-space line ends),
split at the four interpolation holes; `.strip()` and `str.lower()`-style
formatting are modelled on the character list. -/

/-- The whitespace set of Python `str.strip()`. -/
def pyWhitespace (c : Char) : Bool :=
  c = ' ' || c = '\t' || c = '\n' || c = '\r' || c = Char.ofNat 11 ||
    c = Char.ofNat 12

/-- `str.strip()` on a character list. -/
def stripList (l : List Char) : List Char :=
  ((l.dropWhile pyWhitespace).reverse.dropWhile pyWhitespace).reverse

/-- Python `str.strip()`. -/
def pythonStrip (s : String) : String := ⟨stripList s.data⟩

/-- Round-half-even (Python float formatting rounding), on exact
rationals. -/
def roundHalfEven (q : ℚ) : ℤ :=
  if q - ⌊q⌋ < 1 / 2 then ⌊q⌋
  else if 1 / 2 < q - ⌊q⌋ then ⌊q⌋ + 1
  else if ⌊q⌋ % 2 = 0 then ⌊q⌋ else ⌊q⌋ + 1

/-- Python `f"{x:.2%}"`: multiply by 100, fixed-point with two decimals,
percent sign. -/
def formatPercent2 (q : ℚ) : String :=
  let n := roundHalfEven (q * 10000)
  let sign := if n < 0 then "-" else ""
  let m := n.natAbs
  sign ++ toString (m / 100) ++ "." ++
    (if m % 100 < 10 then "0" else "") ++ toString (m % 100) ++ "%"

/-- Template up to the first hole (`{primary[0]}`). -/
def tmplA : String :=
  "\n**Model Attention Analysis:**\n\nThe neural network focused primarily on the **"

/-- Template between a region-name hole and its score hole. -/
def tmplB : String := "** (attention: "

/-- Template between the first score hole and the second name hole
(note the trailing space before the line break, as in the source). -/
def tmplC : String := "), \nfollowed by the **"

/-- Template after the last hole: the fixed disclaimer block, up to the
closing triple quote (the trailing newline and indentation are removed by
`.strip()`). -/
def tmplE : String :=
  ").\n\n**Important Note:**\nThis is a screening tool, not a diagnostic instrument. The model analyzes facial patterns \nthat have been studied in autism research literature. However:\n\n- Facial features alone are insufficient for diagnosis\n- Many factors influence facial expressions and features\n- Professional clinical evaluation is always required\n- This tool should only be used as part of comprehensive screening\n\n**Recommendation:**\nIf screening indicates elevated risk, please consult with a qualified healthcare professional \nfor proper evaluation.\n        "

/-- `ASDExplainableAI.generate_simple_explanation`: reads
`attention_regions[0]` and `attention_regions[1]` (an `IndexError` on a
shorter list is modelled as `none`), then renders the stripped template. -/
def generate_simple_explanation (attention_regions : List (String × ℚ)) :
    Option String :=
  match attention_regions with
  | primary :: secondary :: _ =>
    some (pythonStrip (tmplA ++ primary.1 ++ tmplB ++ formatPercent2 primary.2
      ++ tmplC ++ secondary.1 ++ tmplB ++ formatPercent2 secondary.2 ++ tmplE))
  | _ => none

/-- Disclaimer: facial features alone are insufficient for diagnosis. -/
def disclaimerFacial : String :=
  "Facial features alone are insufficient for diagnosis"

/-- Disclaimer: professional clinical evaluation is always required. -/
def disclaimerClinical : String :=
  "Professional clinical evaluation is always required"

/-- Disclaimer: the tool is for screening support only. -/
def disclaimerScreening : String :=
  "This tool should only be used as part of comprehensive screening"

/-- `needle` occurs as a contiguous substring of `hay`. -/
def containsSub (needle hay : String) : Prop :=
  ∃ u v : List Char, hay.data = u ++ needle.data ++ v

/-- `tmplE` with the trailing whitespace stripped. -/
def tmplEStripped : String :=
  ").\n\n**Important Note:**\nThis is a screening tool, not a diagnostic instrument. The model analyzes facial patterns \nthat have been studied in autism research literature. However:\n\n- Facial features alone are insufficient for diagnosis\n- Many factors influence facial expressions and features\n- Professional clinical evaluation is always required\n- This tool should only be used as part of comprehensive screening\n\n**Recommendation:**\nIf screening indicates elevated risk, please consult with a qualified healthcare professional \nfor proper evaluation."

/-- `tmplA` with the leading newline stripped. -/
def tmplAStripped : String :=
  "**Model Attention Analysis:**\n\nThe neural network focused primarily on the **"

/-- Stripping a concatenation whose first chunk keeps a character and
whose last chunk keeps a character only strips inside those chunks. -/
theorem stripList_concat (a b e : List Char)
    (ha : (a.dropWhile pyWhitespace).isEmpty = false)
    (he : (e.reverse.dropWhile pyWhitespace).isEmpty = false) :
    stripList (a ++ b ++ e) =
      a.dropWhile pyWhitespace ++ b ++
        (e.reverse.dropWhile pyWhitespace).reverse := by
  unfold stripList
  rw [List.append_assoc, List.dropWhile_append]
  simp only [ha, Bool.false_eq_true, if_false]
  rw [List.reverse_append, List.reverse_append, List.append_assoc,
    List.dropWhile_append]
  simp only [he, Bool.false_eq_true, if_false]
  simp [List.append_assoc]

/-- Unfolding lemma for `pythonStrip`. -/
theorem pythonStrip_data (s : String) : (pythonStrip s).data = stripList s.data :=
  rfl

set_option maxRecDepth 40000 in
set_option maxHeartbeats 2000000 in
/-- Claim C5: for every ranked-regions list with at least two entries, the
rationale text contains the fixed disclaimer substrings — facial features
alone are insufficient for diagnosis, professional clinical evaluation is
always required, and the tool is for screening (comprehensive-screening
support) only — regardless of which region ranks first. -/
theorem generate_simple_explanation_disclaimers (l : List (String × ℚ))
    (h2 : 2 ≤ l.length) :
    ∃ s, generate_simple_explanation l = some s ∧
      containsSub disclaimerFacial s ∧
      containsSub disclaimerClinical s ∧
      containsSub disclaimerScreening s := by
  rcases l with _ | ⟨p, _ | ⟨q, rest⟩⟩
  · simp at h2
  · simp at h2
  have hA : tmplA.data.dropWhile pyWhitespace = tmplAStripped.data := by decide
  have hE : (tmplE.data.reverse.dropWhile pyWhitespace).reverse
      = tmplEStripped.data := by decide
  have haA : (tmplA.data.dropWhile pyWhitespace).isEmpty = false := by decide
  have heE : (tmplE.data.reverse.dropWhile pyWhitespace).isEmpty = false := by
    decide
  have hdata : (tmplA ++ p.1 ++ tmplB ++ formatPercent2 p.2 ++ tmplC ++ q.1
        ++ tmplB ++ formatPercent2 q.2 ++ tmplE).data
      = tmplA.data ++ (p.1.data ++ tmplB.data ++ (formatPercent2 p.2).data
        ++ tmplC.data ++ q.1.data ++ tmplB.data ++ (formatPercent2 q.2).data)
        ++ tmplE.data := by
    simp [List.append_assoc]
  have hstrip : (pythonStrip (tmplA ++ p.1 ++ tmplB ++ formatPercent2 p.2
        ++ tmplC ++ q.1 ++ tmplB ++ formatPercent2 q.2 ++ tmplE)).data
      = tmplAStripped.data ++ (p.1.data ++ tmplB.data
        ++ (formatPercent2 p.2).data ++ tmplC.data ++ q.1.data ++ tmplB.data
        ++ (formatPercent2 q.2).data) ++ tmplEStripped.data := by
    rw [pythonStrip_data, hdata, stripList_concat _ _ _ haA heE, hA, hE]
  refine ⟨_, rfl, ?_, ?_, ?_⟩
  · have hsplit : tmplEStripped.data =
        (").\n\n**Important Note:**\nThis is a screening tool, not a diagnostic instrument. The model analyzes facial patterns \nthat have been studied in autism research literature. However:\n\n- ").data
        ++ disclaimerFacial.data
        ++ ("\n- Many factors influence facial expressions and features\n- Professional clinical evaluation is always required\n- This tool should only be used as part of comprehensive screening\n\n**Recommendation:**\nIf screening indicates elevated risk, please consult with a qualified healthcare professional \nfor proper evaluation.").data := by
      decide
    refine ⟨tmplAStripped.data ++ (p.1.data ++ tmplB.data
      ++ (formatPercent2 p.2).data ++ tmplC.data ++ q.1.data ++ tmplB.data
      ++ (formatPercent2 q.2).data)
      ++ (").\n\n**Important Note:**\nThis is a screening tool, not a diagnostic instrument. The model analyzes facial patterns \nthat have been studied in autism research literature. However:\n\n- ").data,
      ("\n- Many factors influence facial expressions and features\n- Professional clinical evaluation is always required\n- This tool should only be used as part of comprehensive screening\n\n**Recommendation:**\nIf screening indicates elevated risk, please consult with a qualified healthcare professional \nfor proper evaluation.").data, ?_⟩
    rw [hstrip, hsplit]
    simp [List.append_assoc]
  · have hsplit : tmplEStripped.data =
        (").\n\n**Important Note:**\nThis is a screening tool, not a diagnostic instrument. The model analyzes facial patterns \nthat have been studied in autism research literature. However:\n\n- Facial features alone are insufficient for diagnosis\n- Many factors influence facial expressions and features\n- ").data
        ++ disclaimerClinical.data
        ++ ("\n- This tool should only be used as part of comprehensive screening\n\n**Recommendation:**\nIf screening indicates elevated risk, please consult with a qualified healthcare professional \nfor proper evaluation.").data := by
      decide
    refine ⟨tmplAStripped.data ++ (p.1.data ++ tmplB.data
      ++ (formatPercent2 p.2).data ++ tmplC.data ++ q.1.data ++ tmplB.data
      ++ (formatPercent2 q.2).data)
      ++ (").\n\n**Important Note:**\nThis is a screening tool, not a diagnostic instrument. The model analyzes facial patterns \nthat have been studied in autism research literature. However:\n\n- Facial features alone are insufficient for diagnosis\n- Many factors influence facial expressions and features\n- ").data,
      ("\n- This tool should only be used as part of comprehensive screening\n\n**Recommendation:**\nIf screening indicates elevated risk, please consult with a qualified healthcare professional \nfor proper evaluation.").data, ?_⟩
    rw [hstrip, hsplit]
    simp [List.append_assoc]
  · have hsplit : tmplEStripped.data =
        (").\n\n**Important Note:**\nThis is a screening tool, not a diagnostic instrument. The model analyzes facial patterns \nthat have been studied in autism research literature. However:\n\n- Facial features alone are insufficient for diagnosis\n- Many factors influence facial expressions and features\n- Professional clinical evaluation is always required\n- ").data
        ++ disclaimerScreening.data
        ++ ("\n\n**Recommendation:**\nIf screening indicates elevated risk, please consult with a qualified healthcare professional \nfor proper evaluation.").data := by
      decide
    refine ⟨tmplAStripped.data ++ (p.1.data ++ tmplB.data
      ++ (formatPercent2 p.2).data ++ tmplC.data ++ q.1.data ++ tmplB.data
      ++ (formatPercent2 q.2).data)
      ++ (").\n\n**Important Note:**\nThis is a screening tool, not a diagnostic instrument. The model analyzes facial patterns \nthat have been studied in autism research literature. However:\n\n- Facial features alone are insufficient for diagnosis\n- Many factors influence facial expressions and features\n- Professional clinical evaluation is always required\n- ").data,
      ("\n\n**Recommendation:**\nIf screening indicates elevated risk, please consult with a qualified healthcare professional \nfor proper evaluation.").data, ?_⟩
    rw [hstrip, hsplit]
    simp [List.append_assoc]

/-- Witness for C5 at a concrete two-entry ranked-regions list. -/
theorem generate_simple_explanation_disclaimers_witness :
    ∃ s, generate_simple_explanation [("eyes_region", (0 : ℚ)), ("overall", 0)]
        = some s ∧
      containsSub disclaimerFacial s ∧
      containsSub disclaimerClinical s ∧
      containsSub disclaimerScreening s :=
  generate_simple_explanation_disclaimers
    [("eyes_region", (0 : ℚ)), ("overall", 0)] (by norm_num)

/-! ## Image modality (`generate_explanation`, `predict_from_image`)

`Image.open` / `PIL` decoding and the PNG/base64 encoders are external
collaborators (spec §1 excludes image decoding/encoding utilities): the
decoder's outcome is an `Except` input, the overlay and LIME encoders are
opaque capabilities. -/

/-- The dict returned by `ASDExplainableAI.generate_explanation` (spec §9
reframes the duck-typed dicts as fixed-field records; keys absent on a
code path are `Option.none`, and `facial_regions` entries are
`(region, attention_score)` pairs — `clinical_relevance` is always the
empty string). -/
structure XaiResult where
  heatmap_base64 : String
  lime_base64 : Option String
  attention_regions : List String
  llm_explanation : String
  facial_regions : List (String × ℚ)
deriving DecidableEq, Repr

/-- The state of `ASDExplainableAI`: the injected CNN, LIME availability,
and the two opaque encoders (`create_heatmap_overlay` body and the LIME
rendering, both of which produce base64 strings and degrade to `""`). -/
structure XaiState where
  model : Option CnnModel
  limeAvailable : Bool
  overlayEncode : Image3 → HeatMap → String
  limeEncode : Image3 → String

/-- `ASDExplainableAI.generate_lime_explanation`: `""` when LIME is not
installed or no model is set, otherwise the rendered image. -/
def generate_lime_explanation (x : XaiState) (img : Image3) : String :=
  if x.limeAvailable = false || x.model.isNone then "" else x.limeEncode img

/-- `ASDExplainableAI.generate_explanation`: gradcam → overlay → region
analysis → LIME → rationale; its `except` branch returns the
error-annotated placeholder dict (reachable only through
`generate_simple_explanation` raising `IndexError`). -/
def generate_explanation (x : XaiState) (img : Image3) : XaiResult :=
  let heatmap := generate_gradcam x.model img
  let heatmap_base64 := x.overlayEncode img heatmap
  let attention_regions := analyze_attention_regions heatmap
  let lime_base64 := generate_lime_explanation x img
  match generate_simple_explanation attention_regions with
  | some text =>
    { heatmap_base64 := heatmap_base64
      lime_base64 := some lime_base64
      attention_regions := attention_regions.map Prod.fst
      llm_explanation := text
      facial_regions := attention_regions }
  | none =>
    { heatmap_base64 := ""
      lime_base64 := some ""
      attention_regions := []
      llm_explanation := "Error generating explanation: list index out of range"
      facial_regions := [] }

/-- The result dict of `ASDUnifiedSystem.predict_from_image`. -/
structure ImageResult where
  source : String
  prediction : ℤ
  confidence : ℚ
  error : Option String
  heatmap_base64 : String
  lime_base64 : Option String
  attention_regions : List String
  llm_explanation : String
  facial_regions : List (String × ℚ)
deriving DecidableEq, Repr

/-- The slice of `ASDUnifiedSystem` state that `predict_from_image`
reads: CNN availability, the CNN score `predict(...)[0][0]`, and the
optional XAI module. -/
structure UnifiedSystem where
  cnn_available : Bool
  cnnScore : Image3 → ℚ
  xai : Option XaiState

/-- `ASDUnifiedSystem.predict_from_image`.  The `try` block's only
failure source is image decoding (`Image.open(...).convert("RGB")` plus
resize/normalize), whose outcome is the `decoded` argument; the `except`
branch is the `.error` case. -/
def predict_from_image (sys : UnifiedSystem)
    (decoded : Except String Image3) : ImageResult :=
  if sys.cnn_available = false then
    { source := "image", prediction := 0, confidence := 0
      error := some "CNN model not available", heatmap_base64 := ""
      lime_base64 := none, attention_regions := []
      llm_explanation := "CNN model could not be loaded"
      facial_regions := [] }
  else
    match decoded with
    | .error e =>
      { source := "image", prediction := 0, confidence := 0
        error := some e, heatmap_base64 := "", lime_base64 := none
        attention_regions := []
        llm_explanation := "Error during prediction: " ++ e
        facial_regions := [] }
    | .ok img =>
      let cnn_pred := sys.cnnScore img
      let xai_results :=
        match sys.xai with
        | some x => generate_explanation x img
        | none =>
          { heatmap_base64 := "", lime_base64 := none
            attention_regions := []
            llm_explanation := "Explainable AI module not available"
            facial_regions := [] }
      { source := "image"
        prediction := if 0.5 < cnn_pred then 1 else 0
        confidence := cnn_pred
        error := none
        heatmap_base64 := xai_results.heatmap_base64
        lime_base64 := xai_results.lime_base64
        attention_regions := xai_results.attention_regions
        llm_explanation := xai_results.llm_explanation
        facial_regions := xai_results.facial_regions }

/-- Claim C3: `predict_from_image` is total — every input, including a
malformed image that cannot be decoded, yields a structured result with
source "image" (never an unhandled exception); on a decode failure it
returns prediction 0, confidence 0.0, the error field, an empty heatmap
overlay, and an error-carrying rationale; likewise the missing-CNN path
returns the structured zero-confidence error record. -/
theorem predict_from_image_structured (sys : UnifiedSystem)
    (decoded : Except String Image3) :
    (predict_from_image sys decoded).source = "image" ∧
    (∀ e, decoded = .error e → sys.cnn_available = true →
      predict_from_image sys decoded =
        { source := "image", prediction := 0, confidence := 0
          error := some e, heatmap_base64 := "", lime_base64 := none
          attention_regions := []
          llm_explanation := "Error during prediction: " ++ e
          facial_regions := [] }) ∧
    (sys.cnn_available = false →
      predict_from_image sys decoded =
        { source := "image", prediction := 0, confidence := 0
          error := some "CNN model not available", heatmap_base64 := ""
          lime_base64 := none, attention_regions := []
          llm_explanation := "CNN model could not be loaded"
          facial_regions := [] }) := by
  refine ⟨?_, ?_, ?_⟩
  · cases hc : sys.cnn_available <;> rcases decoded with e | img <;>
      simp [predict_from_image, hc]
  · intro e hdec hc
    subst hdec
    simp [predict_from_image, hc]
  · intro hc
    simp [predict_from_image, hc]

/-- Witness for C3: a failing decode on a system with a loaded CNN. -/
theorem predict_from_image_structured_witness :
    predict_from_image ⟨true, fun _ => 0, none⟩ (Except.error "bad image") =
      { source := "image", prediction := 0, confidence := 0
        error := some "bad image", heatmap_base64 := "", lime_base64 := none
        attention_regions := []
        llm_explanation := "Error during prediction: " ++ "bad image"
        facial_regions := [] } :=
  (predict_from_image_structured ⟨true, fun _ => 0, none⟩
    (Except.error "bad image")).2.1 "bad image" rfl rfl
